import Mathlib

/-!
Verification of the hotel pricing dashboard (src/app.py) against its
specification.  The script reads a "Dynamic Rates" worksheet through
gspread, caches the resulting DataFrame and worksheet handle in the
session state, renders per-row controls, and writes single cells back on
button presses.  We embed the cell values, the row records, the override
resolution, the refresh / save / push handlers and the per-row widget
rendering as executable Lean definitions and prove the claimed
properties about them.
-/

/-- A cell value as it appears in the pandas DataFrame built from
`worksheet.get_all_records()` (app.py lines 35-36): a number (gspread
numericises numeric cells), a raw string (a blank cell arrives as the
empty string), or a missing value (pandas NaN). -/
inductive CellVal where
  | num (q : ℚ)
  | str (s : String)
  | nan
deriving DecidableEq, Repr

/-- Embeds `pd.notna` (app.py line 128): false exactly on a missing
value; the empty string is NOT missing for pandas. -/
def CellVal.notna : CellVal → Bool
  | .nan => false
  | _ => true

/-- Numeric value of a digit list, most significant digit first. -/
def digitsToNat (ds : List Char) : ℕ :=
  ds.foldl (fun n c => n * 10 + (c.toNat - 48)) 0

/-- Embeds the Python built-in `float` applied to a string: an optional
sign followed by a decimal literal parses to its value; anything else
raises ValueError, modelled as `none`.  Exponent, infinity and
whitespace forms are not modelled; no claim depends on them. -/
def parsePyFloat (s : String) : Option ℚ :=
  let cs := s.toList
  let signBody : Bool × List Char :=
    match cs with
    | '-' :: rest => (true, rest)
    | '+' :: rest => (false, rest)
    | _ => (false, cs)
  let neg := signBody.1
  let body := signBody.2
  let mk : ℚ → Option ℚ := fun q => some (if neg then -q else q)
  match body.splitOn '.' with
  | [ip] =>
      if !ip.isEmpty && ip.all Char.isDigit then mk (mkRat (digitsToNat ip) 1)
      else none
  | [ip, fp] =>
      if (ip.all Char.isDigit && fp.all Char.isDigit) && !(ip.isEmpty && fp.isEmpty)
      then mk (mkRat (digitsToNat ip * 10 ^ fp.length + digitsToNat fp) (10 ^ fp.length))
      else none
  | _ => none

/-- Embeds the Python built-in `float` applied to a DataFrame cell
(app.py line 132): a number passes through, a string is parsed, and a
parse failure raises ValueError (`none`).  `float` of NaN returns NaN,
which no later widget can use as a price; since ℚ has no NaN this is
also modelled as `none`. -/
def pythonFloat : CellVal → Option ℚ
  | .num q => some q
  | .str s => parsePyFloat s
  | .nan => none

/-- One row of the "Dynamic Rates" worksheet, with the columns the
script reads (app.py lines 121-166). -/
structure Record where
  Room_Type : String
  Current_Rate : CellVal
  Comp_Avg_Standard : CellVal
  Occupancy : CellVal
  Base_Recommended : CellVal
  Weekend_Adjusted : CellVal
  Season_Adjusted : CellVal
  Final_Recommended : CellVal
  Manual_Override : CellVal
  Push_to_NB : CellVal
deriving DecidableEq, Repr

/-- Embeds app.py line 128: the override resolution
`row['Manual_Override'] if pd.notna(row['Manual_Override']) else row['Final_Recommended']`. -/
def current_override (row : Record) : CellVal :=
  if (row.Manual_Override).notna then row.Manual_Override else row.Final_Recommended

/-- The effective price resolved for display: `float(current_override)`,
passed as the initial value of the override input (app.py line 132).
`none` models an uncaught ValueError aborting the script run. -/
def effectivePrice (row : Record) : Option ℚ :=
  pythonFloat (current_override row)

/-- A convenient row builder: all display columns fixed, the override
and the final recommendation supplied. -/
def mkRow (name : String) (finalRec manualOv : CellVal) : Record :=
  { Room_Type := name
    Current_Rate := CellVal.num 80
    Comp_Avg_Standard := CellVal.num 100
    Occupancy := CellVal.num 50
    Base_Recommended := CellVal.num 90
    Weekend_Adjusted := CellVal.num 2
    Season_Adjusted := CellVal.num 3
    Final_Recommended := finalRec
    Manual_Override := manualOv
    Push_to_NB := CellVal.str "" }

example : effectivePrice (mkRow "Std" (CellVal.num 95) (CellVal.num 85)) = some 85 := by
  decide
example : effectivePrice (mkRow "Std" (CellVal.num 95) CellVal.nan) = some 95 := by
  decide
example : effectivePrice (mkRow "Std" (CellVal.num 95) (CellVal.str "")) = none := by
  decide
example : parsePyFloat "75.5" = some (mkRat 151 2) := by decide
example : parsePyFloat "abc" = none := by decide

/-- The user-visible messages the script can emit through `st.error`,
`st.success` and `st.warning`.  Each constructor corresponds to one
call site in app.py; the dynamic parts (exception text, saved value,
room name) are carried as payloads.  Distinct constructors correspond
to textually distinct messages in the source. -/
inductive Msg where
  | authError (e : String)
  | wsNotFoundError
  | loadFailedError (e : String)
  | dataLoaded
  | noDataLoaded
  | saveSuccess (v : ℚ) (room : String)
  | saveError (e : String)
  | pushSuccess (room : String)
  | pushError (e : String)
deriving DecidableEq, Repr

/-- Outcome of the external interactions one `load_data` call can run
into: authentication raises inside `connect_to_sheets` (app.py lines
19-21), opening or reading raises generically (line 41), the worksheet
lookup raises `WorksheetNotFound` (line 38), or everything succeeds and
yields a worksheet handle (modelled by a number) and its rows. -/
inductive LoadEnv where
  | authFail (e : String)
  | worksheetNotFound
  | openFail (e : String)
  | ok (ws : ℕ) (rows : List Record)
deriving DecidableEq, Repr

/-- Embeds `load_data` (app.py lines 26-43): returns the DataFrame rows
and the worksheet handle, together with the messages emitted on the
way.  On authentication failure `connect_to_sheets` shows its own error
and returns None, and `load_data` returns an empty frame; on
`WorksheetNotFound` and on any other exception `load_data` shows an
error and returns an empty frame. -/
def load_data : LoadEnv → (List Record × Option ℕ) × List Msg
  | .authFail e => (([], none), [Msg.authError e])
  | .worksheetNotFound => (([], none), [Msg.wsNotFoundError])
  | .openFail e => (([], none), [Msg.loadFailedError e])
  | .ok ws rows => ((rows, some ws), [])

/-- The session state the script keeps across reruns: nothing before
the first successful refresh, afterwards the cached DataFrame rows
(`st.session_state.df`) and worksheet handle
(`st.session_state.worksheet`) (app.py lines 98-99, 107-109). -/
abbrev AppState : Type := Option (List Record × Option ℕ)

/-- Embeds the refresh button handler (app.py lines 93-102): load, and
only when the resulting frame is non-empty overwrite the cached
snapshot; otherwise report and leave the session state alone. -/
def refreshStep (st : AppState) (env : LoadEnv) : AppState × List Msg :=
  let r := load_data env
  let df := r.1.1
  let ws := r.1.2
  let msgs := r.2
  if df.isEmpty then (st, msgs ++ [Msg.noDataLoaded])
  else (some (df, ws), msgs ++ [Msg.dataLoaded])

/-- A value written to a single worksheet cell. -/
inductive WriteVal where
  | num (q : ℚ)
  | str (s : String)
deriving DecidableEq, Repr

/-- One `worksheet.update_cell(row, col, value)` request, addressed to
the worksheet handle `ws` with 1-based row and column (row 1 is the
header row). -/
structure CellWrite where
  ws : ℕ
  row : ℕ
  col : ℕ
  value : WriteVal
deriving DecidableEq, Repr

/-- Whether the remote `update_cell` call returns normally or raises. -/
inductive WriteOutcome where
  | success
  | failure (e : String)
deriving DecidableEq, Repr

/-- Room name of the row at 0-based position `idx` of the snapshot
(`row['Room_Type']` for the iterated row). -/
def roomAt (df : List Record) (idx : ℕ) : String :=
  ((df.get? idx).map Record.Room_Type).getD ""

/-- Embeds the save-override button handler (app.py lines 138-143):
issue `update_cell(idx + 2, 9, new_override)` against the cached
worksheet handle, report success or failure, and never touch the
session state.  When the cached handle is None the attribute access
itself raises and the `except` branch reports it with no write issued. -/
def saveStep (st : AppState) (idx : ℕ) (new_override : ℚ) (outcome : WriteOutcome) :
    AppState × List CellWrite × List Msg :=
  match st with
  | none => (none, [], [])
  | some (df, ws) =>
    match ws with
    | none => (some (df, ws), [], [Msg.saveError "NoneType object has no attribute update_cell"])
    | some w =>
      match outcome with
      | .success =>
          (some (df, ws), [⟨w, idx + 2, 9, WriteVal.num new_override⟩],
            [Msg.saveSuccess new_override (roomAt df idx)])
      | .failure e =>
          (some (df, ws), [⟨w, idx + 2, 9, WriteVal.num new_override⟩],
            [Msg.saveError e])

/-- Embeds the mark-pushed button handler (app.py lines 146-151):
issue `update_cell(idx + 2, 10, "Yes")`, report success or failure, and
never touch the session state. -/
def pushStep (st : AppState) (idx : ℕ) (outcome : WriteOutcome) :
    AppState × List CellWrite × List Msg :=
  match st with
  | none => (none, [], [])
  | some (df, ws) =>
    match ws with
    | none => (some (df, ws), [], [Msg.pushError "NoneType object has no attribute update_cell"])
    | some w =>
      match outcome with
      | .success =>
          (some (df, ws), [⟨w, idx + 2, 10, WriteVal.str "Yes"⟩],
            [Msg.pushSuccess (roomAt df idx)])
      | .failure e =>
          (some (df, ws), [⟨w, idx + 2, 10, WriteVal.str "Yes"⟩],
            [Msg.pushError e])

example :
    (saveStep (some ([mkRow "Std" (CellVal.num 95) CellVal.nan], some 7)) 1
      (mkRat 151 2) WriteOutcome.success).2.1 =
    [⟨7, 3, 9, WriteVal.num (mkRat 151 2)⟩] := by decide

/-- The secrets the execution environment supplies to the script
(`st.secrets`): whether a service-account credential is present and
whether the key "NIGHTSBRIDGE_API_KEY" is present (app.py lines 15,
181). -/
structure Secrets where
  gcp_service_account : Bool
  nightsbridge_api_key : Bool
deriving DecidableEq, Repr

/-- The widgets the dashboard tab renders for one row, and the two
status badges of the settings tab. -/
inductive Widget where
  | metric (label : String) (value : CellVal)
  | numberInput (key : String) (minVal value : ℚ)
  | button (key : String)
  | nbConfiguredBadge
  | nbNotSetBadge
deriving DecidableEq, Repr

/-- Embeds the per-row dashboard rendering (app.py lines 120-151): the
three metrics, the override input with `min_value=0.0` and initial
value `float(current_override)`, and the save and push buttons.  The
rendering consults nothing in `st.secrets`: the `secrets` argument is
in scope (the script can reach `st.secrets` anywhere) but unused, as in
the source.  Rendering fails (`none`) when the float cast raises, or
when the initial value lies below `min_value` and `st.number_input`
raises a StreamlitAPIException. -/
def renderRow (_secrets : Secrets) (idx : ℕ) (row : Record) : Option (List Widget) :=
  match effectivePrice row with
  | none => none
  | some v =>
    if v < 0 then none
    else some
      [ Widget.metric "Current Rate" row.Current_Rate
      , Widget.metric "Comp Avg" row.Comp_Avg_Standard
      , Widget.metric "Final Rec" row.Final_Recommended
      , Widget.numberInput ("override_" ++ toString idx) 0 v
      , Widget.button ("save_" ++ toString idx)
      , Widget.button ("push_" ++ toString idx) ]

/-- Embeds the NightsBridge connection status of the settings tab
(app.py lines 181-184): a success badge when "NIGHTSBRIDGE_API_KEY" is
among the secrets, a warning badge otherwise.  This is the only place
the script consults that key. -/
def nbStatusBadge (secrets : Secrets) : Widget :=
  if secrets.nightsbridge_api_key then Widget.nbConfiguredBadge else Widget.nbNotSetBadge

/-- The value held by the override `st.number_input` when the save
button fires (app.py lines 129-135): rendering raises when the initial
value lies below `min_value`; afterwards the widget holds the initial
value until the user edits it, and never accepts a value below
`min_value`. -/
def numberInputValue (minVal initial : ℚ) (userEdit : Option ℚ) : Option ℚ :=
  if initial < minVal then none
  else some (match userEdit with
    | none => initial
    | some u => max minVal u)

/-- The `new_override` value the save button would persist for a row,
given the user's optional edit of the override input: the float cast of
the resolved override fed through the widget with `min_value=0.0`. -/
def savedOverrideValue (row : Record) (userEdit : Option ℚ) : Option ℚ :=
  (effectivePrice row).bind (fun v => numberInputValue 0 v userEdit)

/-- The full dashboard save interaction for the row at 0-based position
`idx`: look the row up in the cached snapshot, determine the widget
value, and run the save handler with it.  `none` models a run where
the row's widgets failed to render, so no save button exists. -/
def dashboardSave (df : List Record) (ws : Option ℕ) (idx : ℕ) (userEdit : Option ℚ)
    (outcome : WriteOutcome) : Option (AppState × List CellWrite × List Msg) :=
  (df.get? idx).bind fun row =>
    (savedOverrideValue row userEdit).map fun v =>
      saveStep (some (df, ws)) idx v outcome

/-- Rounding half to even to the nearest integer, the rounding of the
Python built-in `round`. -/
def roundHalfEven (q : ℚ) : ℤ :=
  if q - ⌊q⌋ < 1 / 2 then ⌊q⌋
  else if q - ⌊q⌋ > 1 / 2 then ⌊q⌋ + 1
  else if ⌊q⌋ % 2 = 0 then ⌊q⌋ else ⌊q⌋ + 1

/-- Python `round(x, 2)` on exact rationals: round half to even at two
decimal places. -/
def pyRound2 (q : ℚ) : ℚ := (roundHalfEven (q * 100) : ℚ) / 100

/-- Modelled from the spec: the Variant A pricing calculator
(`recommendedPrice(competitorAverage) = round(competitorAverage * 0.97, 2)`,
a flat 3% undercut).  The repository holds five near-duplicate
versions of the app, and the one under src/ (app.py) is a Variant B
script that only displays an upstream `Final_Recommended` column; the
Variant A calculator source is not under src/, so it is modelled from
the spec's formula. -/
def recommendedPrice (competitorAverage : ℚ) : ℚ :=
  pyRound2 (competitorAverage * (97 / 100))

/-- C1 counterexample: a present-but-blank Manual_Override (the empty
string a blank sheet cell arrives as, which `pd.notna` counts as
present) is not resolved to Final_Recommended: `float` of the empty
string raises and no effective price is produced, refuting the claim
that a blank override resolves to the final recommendation. -/
theorem c1_blank_override_not_final_recommended :
    effectivePrice (mkRow "Standard" (CellVal.num 50) (CellVal.str "")) = none ∧
    effectivePrice (mkRow "Standard" (CellVal.num 50) (CellVal.str "")) ≠ some 50 := by
  decide

/-- C1 (amended): the effective price equals the manual override when
it is present and numeric, and equals the final recommendation when
the override is absent (NaN) and the recommendation is numeric; a
present-but-blank override instead makes the resolution raise an
uncaught ValueError, producing no effective price. -/
theorem c1_effective_price_resolution (row : Record) :
    (∀ q : ℚ, row.Manual_Override = CellVal.num q → effectivePrice row = some q) ∧
    (∀ f : ℚ, row.Manual_Override = CellVal.nan → row.Final_Recommended = CellVal.num f →
      effectivePrice row = some f) ∧
    (row.Manual_Override = CellVal.str "" → effectivePrice row = none) := by
  refine ⟨?_, ?_, ?_⟩
  · intro q h
    simp [effectivePrice, current_override, h, CellVal.notna, pythonFloat]
  · intro f h hf
    simp [effectivePrice, current_override, h, hf, CellVal.notna, pythonFloat]
  · intro h
    simp [effectivePrice, current_override, h, CellVal.notna, pythonFloat]
    decide

/-- C1 witness: the three branches of the amended resolution evaluated
on concrete records. -/
theorem c1_effective_price_resolution_witness :
    effectivePrice (mkRow "A" (CellVal.num 95) (CellVal.num 85)) = some 85 ∧
    effectivePrice (mkRow "B" (CellVal.num 95) CellVal.nan) = some 95 ∧
    effectivePrice (mkRow "C" (CellVal.num 95) (CellVal.str "")) = none :=
  ⟨(c1_effective_price_resolution _).1 85 rfl,
   (c1_effective_price_resolution _).2.1 95 rfl rfl,
   (c1_effective_price_resolution _).2.2 rfl⟩

/-- C2: for every row index, the save handler issues exactly one write,
to 1-based row idx + 2 and column 9 (Manual_Override) of the cached
worksheet; in particular saving 75.5 (= 151/2) for the row at 0-based
index 1 writes 75.5 to cell (3, 9). -/
theorem c2_save_targets_row_idx_plus_2_col_9 (df : List Record) (w idx : ℕ) (v : ℚ)
    (outcome : WriteOutcome) :
    (saveStep (some (df, some w)) idx v outcome).2.1 = [⟨w, idx + 2, 9, WriteVal.num v⟩] ∧
    (saveStep (some (df, some w)) 1 (mkRat 151 2) WriteOutcome.success).2.1 =
      [⟨w, 3, 9, WriteVal.num (mkRat 151 2)⟩] := by
  refine ⟨?_, rfl⟩
  cases outcome <;> rfl

/-- C3: at the failing input, a present-but-non-numeric override
("abc"), the resolution performs `float("abc")`, which raises an
uncaught ValueError: no effective price is produced and the row fails
to render; the script has no ValidationError anywhere (no Msg
constructor for one), so the untyped parse failure escapes, against
the claim. -/
theorem c3_non_numeric_override_escapes_uncaught :
    effectivePrice (mkRow "Standard" (CellVal.num 95) (CellVal.str "abc")) = none ∧
    renderRow ⟨true, true⟩ 0 (mkRow "Standard" (CellVal.num 95) (CellVal.str "abc")) = none := by
  decide

/-- C5: a worksheet-not-found condition during refresh leaves a
previously loaded snapshot unchanged, and the error it surfaces is
distinct from the one an authentication failure surfaces. -/
theorem c5_worksheet_not_found_keeps_snapshot (s : List Record × Option ℕ) (e : String) :
    refreshStep (some s) LoadEnv.worksheetNotFound =
      (some s, [Msg.wsNotFoundError, Msg.noDataLoaded]) ∧
    refreshStep (some s) (LoadEnv.authFail e) =
      (some s, [Msg.authError e, Msg.noDataLoaded]) ∧
    Msg.wsNotFoundError ≠ Msg.authError e := by
  refine ⟨rfl, rfl, ?_⟩
  intro h
  cases h

/-- C6: a save or push action, whatever its outcome, returns the
session state it was given — the cached rows and worksheet handle are
never rolled back, invalidated or modified — and a failing call is
reported with the corresponding error message. -/
theorem c6_save_push_never_touch_snapshot (st : AppState) (idx : ℕ) (v : ℚ)
    (outcome : WriteOutcome) (df : List Record) (w : ℕ) (e : String) :
    (saveStep st idx v outcome).1 = st ∧
    (pushStep st idx outcome).1 = st ∧
    (saveStep (some (df, some w)) idx v (WriteOutcome.failure e)).2.2 = [Msg.saveError e] ∧
    (pushStep (some (df, some w)) idx (WriteOutcome.failure e)).2.2 = [Msg.pushError e] := by
  refine ⟨?_, ?_, rfl, rfl⟩
  · match st with
    | none => rfl
    | some (df', none) => rfl
    | some (df', some w') => cases outcome <;> rfl
  · match st with
    | none => rfl
    | some (df', none) => rfl
    | some (df', some w') => cases outcome <;> rfl

/-- C7: for every row index, the push handler issues exactly one write,
the string "Yes" to 1-based row idx + 2 and column 10 (Push_to_NB) of
the cached worksheet. -/
theorem c7_push_writes_yes_row_idx_plus_2_col_10 (df : List Record) (w idx : ℕ)
    (outcome : WriteOutcome) :
    (pushStep (some (df, some w)) idx outcome).2.1 =
      [⟨w, idx + 2, 10, WriteVal.str "Yes"⟩] ∧
    (pushStep (some (df, some w)) 1 WriteOutcome.success).2.1 =
      [⟨w, 3, 10, WriteVal.str "Yes"⟩] := by
  refine ⟨?_, rfl⟩
  cases outcome <;> rfl

/-- C4 counterexample: with no channel-manager credential configured
(no "NIGHTSBRIDGE_API_KEY" among the secrets) the push button of row 0
is still rendered and invocable, refuting the claim that the push
action is hidden or disabled in that configuration. -/
theorem c4_push_button_rendered_without_credential :
    Widget.button "push_0" ∈
      (renderRow ⟨true, false⟩ 0 (mkRow "Standard" (CellVal.num 95) CellVal.nan)).getD [] := by
  decide

/-- C4 (amended): the per-row rendering does not consult the secrets at
all, so the push button is rendered, with the same widgets, whether or
not the channel-manager credential is configured; only the settings
tab's status badge reflects the credential, and invoking push performs
a spreadsheet flag write (never a channel-manager call), so no
credential-dependent runtime failure occurs. -/
theorem c4_push_rendered_regardless_of_credential (s₁ s₂ : Secrets) (idx : ℕ)
    (row : Record) (ws : List Widget) :
    renderRow s₁ idx row = renderRow s₂ idx row ∧
    (renderRow s₁ idx row = some ws → Widget.button ("push_" ++ toString idx) ∈ ws) ∧
    nbStatusBadge ⟨s₁.gcp_service_account, false⟩ = Widget.nbNotSetBadge ∧
    nbStatusBadge ⟨s₁.gcp_service_account, true⟩ = Widget.nbConfiguredBadge := by
  refine ⟨rfl, ?_, rfl, rfl⟩
  intro h
  unfold renderRow at h
  match hv : effectivePrice row with
  | none => rw [hv] at h; exact absurd h (by simp)
  | some v =>
      rw [hv] at h
      by_cases hneg : v < 0
      · simp [hneg] at h
      · simp only [hneg, if_false] at h
        obtain rfl : _ = ws := Option.some.inj h
        simp

/-- A sample record whose Manual_Override is absent and whose
Final_Recommended is 95. -/
def sampleRow : Record := mkRow "Std" (CellVal.num 95) CellVal.nan

/-- A sample one-row snapshot. -/
def sampleDf : List Record := [sampleRow]

/-- C4 witness: the amended theorem applied to a credential-less
configuration and a concrete row: the push button is among the
rendered widgets. -/
theorem c4_push_rendered_regardless_of_credential_witness :
    Widget.button ("push_" ++ toString 0) ∈
      [ Widget.metric "Current Rate" sampleRow.Current_Rate
      , Widget.metric "Comp Avg" sampleRow.Comp_Avg_Standard
      , Widget.metric "Final Rec" sampleRow.Final_Recommended
      , Widget.numberInput ("override_" ++ toString 0) 0 95
      , Widget.button ("save_" ++ toString 0)
      , Widget.button ("push_" ++ toString 0) ] :=
  (c4_push_rendered_regardless_of_credential ⟨true, false⟩ ⟨true, true⟩ 0 sampleRow _).2.1
    (by decide)

/-- C9: when a row's Manual_Override is absent (NaN) the override input
is pre-filled with float(Final_Recommended), so pressing Save without
editing persists the final recommendation itself to column 9 — the
absent override becomes an explicit one. -/
theorem c9_unedited_save_writes_final_recommended (df : List Record) (w idx : ℕ)
    (row : Record) (q : ℚ) (hrow : df.get? idx = some row)
    (hov : row.Manual_Override = CellVal.nan)
    (hfin : row.Final_Recommended = CellVal.num q) (hq : 0 ≤ q) :
    savedOverrideValue row none = some q ∧
    dashboardSave df (some w) idx none WriteOutcome.success =
      some (some (df, some w), [⟨w, idx + 2, 9, WriteVal.num q⟩],
        [Msg.saveSuccess q (roomAt df idx)]) := by
  have hv : savedOverrideValue row none = some q := by
    simp [savedOverrideValue, effectivePrice, current_override, hov, CellVal.notna,
      pythonFloat, hfin, numberInputValue, not_lt.mpr hq]
  have hrow2 : df[idx]? = some row := by rw [← List.get?_eq_getElem?]; exact hrow
  refine ⟨hv, ?_⟩
  simp [dashboardSave, hrow2, hv, saveStep]

/-- C9 witness: the theorem evaluated on a concrete one-row snapshot
with an absent override and Final_Recommended = 95. -/
theorem c9_unedited_save_writes_final_recommended_witness :
    savedOverrideValue sampleRow none = some 95 ∧
    dashboardSave sampleDf (some 7) 0 none WriteOutcome.success =
      some (some (sampleDf, some 7), [⟨7, 2, 9, WriteVal.num 95⟩],
        [Msg.saveSuccess 95 "Std"]) :=
  c9_unedited_save_writes_final_recommended sampleDf 7 0 sampleRow 95 rfl rfl rfl
    (by norm_num)

/-- Helper: any value the override widget can hold is at least the
widget's minimum of 0. -/
theorem savedOverrideValue_nonneg (row : Record) (userEdit : Option ℚ) (v : ℚ)
    (h : savedOverrideValue row userEdit = some v) : 0 ≤ v := by
  rcases hep : effectivePrice row with _ | p
  · rw [savedOverrideValue, hep] at h
    cases h
  · rw [savedOverrideValue, hep] at h
    have h2 : numberInputValue 0 p userEdit = some v := h
    unfold numberInputValue at h2
    by_cases hp : p < 0
    · rw [if_pos hp] at h2
      cases h2
    · rw [if_neg hp] at h2
      have h3 := Option.some.inj h2
      rcases userEdit with _ | u
      · exact h3 ▸ le_of_not_lt hp
      · exact h3 ▸ le_max_left 0 u

/-- C10: every cell write the dashboard save interaction can issue
carries a non-negative numeric value: the override input enforces
min_value = 0.0, so no negative override is ever persisted through the
dashboard. -/
theorem c10_dashboard_save_persists_only_nonneg (df : List Record) (ws : Option ℕ)
    (idx : ℕ) (userEdit : Option ℚ) (outcome : WriteOutcome)
    (r : AppState × List CellWrite × List Msg)
    (h : dashboardSave df ws idx userEdit outcome = some r) :
    ∀ cw ∈ r.2.1, ∃ v : ℚ, cw.value = WriteVal.num v ∧ 0 ≤ v := by
  rcases hrow : df.get? idx with _ | row
  · rw [dashboardSave, hrow] at h
    cases h
  · rw [dashboardSave, hrow] at h
    have h2 : (savedOverrideValue row userEdit).map
        (fun v => saveStep (some (df, ws)) idx v outcome) = some r := h
    rcases hsv : savedOverrideValue row userEdit with _ | v
    · rw [hsv] at h2
      cases h2
    · rw [hsv] at h2
      have hr := Option.some.inj h2
      subst hr
      have hv := savedOverrideValue_nonneg row userEdit v hsv
      rcases ws with _ | w
      · intro cw hcw
        simp [saveStep] at hcw
      · rcases outcome with _ | e <;>
        · intro cw hcw
          simp [saveStep] at hcw
          exact ⟨v, by rw [hcw], hv⟩

/-- C10 witness: a user edit of -5 is clamped by the widget; the only
write issued carries the non-negative value 0. -/
theorem c10_dashboard_save_persists_only_nonneg_witness :
    ∃ v : ℚ, (CellWrite.mk 7 2 9 (WriteVal.num 0)).value = WriteVal.num v ∧ 0 ≤ v :=
  c10_dashboard_save_persists_only_nonneg sampleDf (some 7) 0 (some (-5))
    WriteOutcome.success
    (some (sampleDf, some 7), [⟨7, 2, 9, WriteVal.num 0⟩], [Msg.saveSuccess 0 "Std"])
    (by decide) ⟨7, 2, 9, WriteVal.num 0⟩ (by simp)

/-- C8: for every non-negative competitor average, the Variant A
calculator returns round(avg * 0.97, 2); in particular 100 ↦ 97 and
33.33 ↦ 32.33 (0.97 × 33.33 = 32.3301 ↦ 32.33). -/
theorem c8_variant_a_recommended_price (avg : ℚ) (_h : 0 ≤ avg) :
    recommendedPrice avg = pyRound2 (avg * (97 / 100)) ∧
    recommendedPrice 100 = 97 ∧
    recommendedPrice (3333 / 100) = 3233 / 100 := by
  refine ⟨rfl, ?_, ?_⟩
  · norm_num [recommendedPrice, pyRound2, roundHalfEven]
  · norm_num [recommendedPrice, pyRound2, roundHalfEven]

/-- C8 witness: the theorem applied at the non-negative average 100. -/
theorem c8_variant_a_recommended_price_witness :
    (0 : ℚ) ≤ 100 ∧ recommendedPrice 100 = 97 :=
  ⟨by norm_num, (c8_variant_a_recommended_price 100 (by norm_num)).2.1⟩
